import Mathlib

/-!
Shallow embedding of the resource-binding and context-sharing core of the
`glip` library (files `glip/gl/context.py` and `glip/gl/objects.py`).

Python object identity is modelled by numeric ids (`WinId`, `CtxId`, `ObjId`);
the mutable global state (the active window, each window's binding and default
tables, each `ObjectContext`'s member set, and every GL object's fields) is
gathered in a `GLState` record.  Methods become functions on `GLState`;
a mutating method returns `Except GlipError α × GLState` so that the state
left behind by a raised exception is observable, exactly as in Python where
an exception does not roll back mutations.  Failed `assert` statements and
attribute/key errors become `GlipError` values.
-/

namespace Glip

/-- Resource kinds.  In the source each bindable class carries a unique
`kind = object()` class attribute (`VBO.kind`, `EBO.kind`, `UBO.kind`,
`_VAO.kind`, `Texture2D.kind`, `ShaderProgram.kind`). -/
inductive Kind where
  | vbo
  | ebo
  | ubo
  | vao
  | tex2d
  | prog
  deriving DecidableEq, Repr, Fintype

abbrev ObjId := Nat
abbrev WinId := Nat
abbrev CtxId := Nat

/-- Errors raised by the Python code: `contextMismatch` is the failed
`assert self.exists_in_current_context()`, `useAfterDestroy` the failed
`assert not self.is_destroyed()`, `assertionError` any other failed assert,
`attributeError` an access on `None` or on a deleted attribute,
`keyError` a failed `WeakSet.remove`, and `userError` stands for an
exception raised by caller code inside a `with ... :` body. -/
inductive GlipError where
  | contextMismatch
  | useAfterDestroy
  | assertionError
  | attributeError
  | keyError
  | userError
  deriving DecidableEq, Repr

/-- One `_GLObject`: `_handle` (set to `None` by `destroy`), the owning
`_window`, the `_shareable` flag, the class's `kind` tag, the `_ebo`
attachment slot of `_VAO` instances, and whether the object is a
`DefaultVAO` (whose `_do_destroy` is a no-op and does not touch `handle`). -/
structure GLObject where
  handle : Option Nat
  window : WinId
  shareable : Bool
  kind : Kind
  ebo : Option ObjId
  isDefault : Bool
  deriving DecidableEq, Repr

/-- Python-dict lookup on an association list (first binding wins). -/
def dictGet {α β : Type} [DecidableEq α] (k : α) : List (α × β) → Option β
  | [] => none
  | (k', v) :: rest => if k' = k then some v else dictGet k rest

/-- Python-dict update `d[k] = v`. -/
def dictSet {α β : Type} [DecidableEq α] (k : α) (v : β) (l : List (α × β)) :
    List (α × β) :=
  (k, v) :: l.filter (fun p => p.1 ≠ k)

/-- Python-dict deletion `if k in d: del d[k]`. -/
def dictErase {α β : Type} [DecidableEq α] (k : α) (l : List (α × β)) :
    List (α × β) :=
  l.filter (fun p => p.1 ≠ k)

/-- Per-window state: the `object_context` reference, the `_bound` dict,
the `_defaults` dict, and whether `_glfw_window` is still an attribute of
the object (`destroy` does `del self._glfw_window`). -/
structure WindowSt where
  ctx : CtxId
  bound : List (Kind × ObjId)
  defaults : List (Kind × ObjId)
  glfwAlive : Bool
  deriving DecidableEq, Repr

/-- The global mutable state: `Window._active`, every window, every
`ObjectContext`'s `_windows` member list, and every GL object. -/
structure GLState where
  active : Option WinId
  windows : WinId → WindowSt
  ctxWindows : CtxId → List WinId
  objects : ObjId → GLObject

/-- Replace the state of window `w`. -/
def updateWin (s : GLState) (w : WinId) (f : WindowSt → WindowSt) : GLState :=
  { s with windows := fun w' => if w' = w then f (s.windows w') else s.windows w' }

/-- Replace the state of object `o`. -/
def updateObj (s : GLState) (o : ObjId) (f : GLObject → GLObject) : GLState :=
  { s with objects := fun o' => if o' = o then f (s.objects o') else s.objects o' }

/-- Models `Window.get_active()`. -/
def Window.get_active (s : GLState) : Option WinId := s.active

/-- Models `Window.is_active(self)`: `self is Window.get_active()`. -/
def Window.is_active (s : GLState) (w : WinId) : Bool := s.active = some w

/-- Models `ObjectContext.get_active()`: the active window's `object_context`,
or `None` when no window is active. -/
def ObjectContext.get_active (s : GLState) : Option CtxId :=
  match s.active with
  | none => none
  | some w => some (s.windows w).ctx

/-- Models `ObjectContext.is_active(self)`. -/
def ObjectContext.is_active (s : GLState) (c : CtxId) : Bool :=
  ObjectContext.get_active s = some c

/-- Models `_GLObject.exists_in_current_context`: a shareable object exists while
its owning window's `object_context` is the active one; a non-shareable
object only while its owning window itself is active. -/
def exists_in_current_context (s : GLState) (o : ObjId) : Bool :=
  if (s.objects o).shareable then
    ObjectContext.is_active s (s.windows (s.objects o).window).ctx
  else
    Window.is_active s (s.objects o).window

/-- Models `_GLObject.is_destroyed`: the handle has been nulled. -/
def is_destroyed (s : GLState) (o : ObjId) : Bool :=
  (s.objects o).handle = none

/-- The `handle` property: `assert self.exists_in_current_context()`,
`assert not self.is_destroyed()`, then return the raw handle. -/
def handle (s : GLState) (o : ObjId) : Except GlipError Nat :=
  if exists_in_current_context s o then
    if is_destroyed s o then .error .useAfterDestroy
    else .ok ((s.objects o).handle.getD 0)
  else .error .contextMismatch

/-- Models `Window.get_bound(self, kind)`: `self._bound.get(kind, self._defaults.get(kind, None))`. -/
def Window.get_bound (s : GLState) (w : WinId) (k : Kind) : Option ObjId :=
  match dictGet k (s.windows w).bound with
  | some o => some o
  | none => dictGet k (s.windows w).defaults

/-- Models `Window.set_bound(self, kind, gl_object)`: `assert gl_object.kind == kind`
then record the object in `self._bound`. -/
def Window.set_bound (s : GLState) (w : WinId) (k : Kind) (o : ObjId) :
    Except GlipError Unit × GLState :=
  if (s.objects o).kind = k then
    (.ok (), updateWin s w (fun ws => { ws with bound := dictSet k o ws.bound }))
  else (.error .assertionError, s)

/-- Models `Window.clear_bound(self, kind)`. -/
def Window.clear_bound (s : GLState) (w : WinId) (k : Kind) : GLState :=
  updateWin s w (fun ws => { ws with bound := dictErase k ws.bound })

/-- Class-level `_BindableGLObject.get_bound()`:
`Window.get_active().get_bound(cls.kind)` — an attribute error when no
window is active. -/
def get_bound (s : GLState) (k : Kind) : Except GlipError (Option ObjId) :=
  match s.active with
  | none => .error .attributeError
  | some w => .ok (Window.get_bound s w k)

/-- Models `_BindableGLObject._set_bound(self)`:
`Window.get_active().set_bound(self.kind, self)`. -/
def set_bound_active (s : GLState) (o : ObjId) : Except GlipError Unit × GLState :=
  match s.active with
  | none => (.error .attributeError, s)
  | some w => Window.set_bound s w (s.objects o).kind o

/-- Models `_BindableGLObject.is_bound(self)`:
`assert self.exists_in_current_context()` then `self is self.get_bound()`. -/
def is_bound (s : GLState) (o : ObjId) : Except GlipError Bool :=
  if exists_in_current_context s o then
    match get_bound s (s.objects o).kind with
    | .error e => .error e
    | .ok b => .ok (b = some o)
  else .error .contextMismatch

/-- Models `_BindableGLObject.bind(self)`: no-op returning `False` when already
bound; otherwise `self._do_bind(self.handle)` (which evaluates the guarded
`handle` property) followed by `self._set_bound()`, returning `True`. -/
def Bindable.bind (s : GLState) (o : ObjId) : Except GlipError Bool × GLState :=
  match is_bound s o with
  | .error e => (.error e, s)
  | .ok true => (.ok false, s)
  | .ok false =>
    match handle s o with
    | .error e => (.error e, s)
    | .ok _ =>
      match set_bound_active s o with
      | (.error e, s') => (.error e, s')
      | (.ok _, s') => (.ok true, s')

/-- Class-level `_BindableGLObject.unbind(cls)`: `cls._do_bind(0)` (a pure
native call, no table state) then `Window.get_active().clear_bound(cls.kind)`.
Note there is no `exists_in_current_context` guard here. -/
def Bindable.unbind (s : GLState) (k : Kind) : Except GlipError Unit × GLState :=
  match s.active with
  | none => (.error .attributeError, s)
  | some w => (.ok (), Window.clear_bound s w k)

/-- Models `EBO.bind(self)`: run the base bind, and when it reports a transition,
fetch the currently bound VAO and record this EBO as its `_ebo` attachment. -/
def EBO.bind (s : GLState) (o : ObjId) : Except GlipError Bool × GLState :=
  match Bindable.bind s o with
  | (.error e, s') => (.error e, s')
  | (.ok false, s') => (.ok false, s')
  | (.ok true, s') =>
    match get_bound s' Kind.vao with
    | .error e => (.error e, s')
    | .ok none => (.error .attributeError, s')
    | .ok (some v) => (.ok true, updateObj s' v (fun g => { g with ebo := some o }))

/-- Models `_VAO.bind(self)`: run the base bind; on a transition, either re-record
the remembered `_ebo` attachment as bound, or clear the EBO-kind entry of
the active window when there is no attachment. -/
def VAO.bind (s : GLState) (o : ObjId) : Except GlipError Bool × GLState :=
  match Bindable.bind s o with
  | (.error e, s') => (.error e, s')
  | (.ok false, s') => (.ok false, s')
  | (.ok true, s') =>
    match (s'.objects o).ebo with
    | some e =>
      match set_bound_active s' e with
      | (.error er, s'') => (.error er, s'')
      | (.ok _, s'') => (.ok true, s'')
    | none =>
      match s'.active with
      | none => (.error .attributeError, s')
      | some w => (.ok true, Window.clear_bound s' w Kind.ebo)

/-- Dynamic dispatch of `bind`: every EBO-kind object is an `EBO`, every
VAO-kind object a `_VAO`; all other bindable classes inherit the base
`_BindableGLObject.bind`. -/
def dispatchBind (s : GLState) (o : ObjId) : Except GlipError Bool × GLState :=
  match (s.objects o).kind with
  | Kind.ebo => EBO.bind s o
  | Kind.vao => VAO.bind s o
  | _ => Bindable.bind s o

/-- The `bound()` context manager.  `body` is the code of the `with` block;
it may mutate the state and may raise.  Mirrors the generator exactly: when
the object is already bound the body runs with no cleanup; otherwise the
previously bound object is read, the object is bound, the body runs, and
only a normal return reaches the restoration code after the `yield`
(there is no `try/finally` in the source). -/
def bound_scope (s : GLState) (o : ObjId)
    (body : GLState → Except GlipError Unit × GLState) :
    Except GlipError Unit × GLState :=
  match is_bound s o with
  | .error e => (.error e, s)
  | .ok true => body s
  | .ok false =>
    match get_bound s (s.objects o).kind with
    | .error e => (.error e, s)
    | .ok prev =>
      match dispatchBind s o with
      | (.error e, s1) => (.error e, s1)
      | (.ok _, s1) =>
        match body s1 with
        | (.error e, s2) => (.error e, s2)
        | (.ok _, s2) =>
          match prev with
          | none => Bindable.unbind s2 (s.objects o).kind
          | some p =>
            match dispatchBind s2 p with
            | (.error e, s3) => (.error e, s3)
            | (.ok _, s3) => (.ok (), s3)

/-- Models `_VAO.bind_ebo(self, ebo)`: `assert self.is_bound()` then `ebo.bind()`. -/
def bind_ebo (s : GLState) (v e : ObjId) : Except GlipError Unit × GLState :=
  match is_bound s v with
  | .error er => (.error er, s)
  | .ok false => (.error .assertionError, s)
  | .ok true =>
    match dispatchBind s e with
    | (.error er, s') => (.error er, s')
    | (.ok _, s') => (.ok (), s')

/-- Models `_do_destroy`: a `DefaultVAO` does nothing; every other subclass issues
the native delete with `self.handle`, which evaluates the guarded property. -/
def do_destroy (s : GLState) (o : ObjId) : Except GlipError Unit :=
  if (s.objects o).isDefault then .ok ()
  else
    match handle s o with
    | .error e => .error e
    | .ok _ => .ok ()

/-- Models `_GLObject.destroy(self)`: `self._do_destroy()` then `self._handle = None`. -/
def destroyBase (s : GLState) (o : ObjId) : Except GlipError Unit × GLState :=
  match do_destroy s o with
  | .error e => (.error e, s)
  | .ok _ => (.ok (), updateObj s o (fun g => { g with handle := none }))

/-- The windows scanned by `_BindableGLObject.destroy`: all members of the
owning window's `object_context` for a shareable object, else just the
owning window. -/
def scopeWindows (s : GLState) (o : ObjId) : List WinId :=
  if (s.objects o).shareable then
    s.ctxWindows (s.windows (s.objects o).window).ctx
  else [(s.objects o).window]

/-- One iteration of the scrub loop in `_BindableGLObject.destroy`:
`if self is window.get_bound(self.kind): window.clear_bound(self.kind)`. -/
def scrubStep (o : ObjId) (k : Kind) (acc : GLState) (w : WinId) : GLState :=
  if Window.get_bound acc w k = some o then Window.clear_bound acc w k else acc

/-- Models `_BindableGLObject.destroy(self)`: the base destroy, then clear this
object from the binding table of every window in its scope. -/
def Bindable.destroy (s : GLState) (o : ObjId) : Except GlipError Unit × GLState :=
  match destroyBase s o with
  | (.error e, s1) => (.error e, s1)
  | (.ok _, s1) =>
    (.ok (), (scopeWindows s1 o).foldl (scrubStep o (s1.objects o).kind) s1)

/-- Models `Window.activate(self)`: `glfw.make_context_current(self._glfw_window)`
(an attribute error once `_glfw_window` has been deleted) then set the
global active pointer. -/
def Window.activate (s : GLState) (w : WinId) : Except GlipError Unit × GLState :=
  if (s.windows w).glfwAlive then (.ok (), { s with active := some w })
  else (.error .attributeError, s)

/-- Destroy the values of `self._defaults` in order. -/
def destroyList (s : GLState) (os : List ObjId) : Except GlipError Unit × GLState :=
  match os with
  | [] => (.ok (), s)
  | o :: rest =>
    match Bindable.destroy s o with
    | (.error e, s') => (.error e, s')
    | (.ok _, s') => destroyList s' rest

/-- Remove `w` from the member list of context `c`
(`ObjectContext.detach`, backed by `WeakSet.remove`). -/
def detachWindow (s : GLState) (c : CtxId) (w : WinId) : GLState :=
  { s with ctxWindows := fun c' =>
      if c' = c then (s.ctxWindows c').filter (fun w' => w' ≠ w) else s.ctxWindows c' }

/-- Models `Window.destroy(self)`: remember the active window, activate `self`
(an attribute error on a second destroy), destroy the default resources,
detach from the `object_context` (a key error when already detached),
delete `_glfw_window`, and finally restore the remembered window — or
leave no window active when `self` was the remembered one. -/
def Window.destroy (s : GLState) (w : WinId) : Except GlipError Unit × GLState :=
  let oldActive := s.active
  match Window.activate s w with
  | (.error e, s') => (.error e, s')
  | (.ok _, s1) =>
    match destroyList s1 ((s1.windows w).defaults.map (fun p => p.2)) with
    | (.error e, s') => (.error e, s')
    | (.ok _, s2) =>
      if w ∈ s2.ctxWindows (s2.windows w).ctx then
        let s3 := detachWindow s2 (s2.windows w).ctx w
        let s4 := updateWin s3 w (fun ws => { ws with glfwAlive := false })
        match oldActive with
        | none => (.ok (), { s4 with active := none })
        | some a =>
          if a = w then (.ok (), { s4 with active := none })
          else Window.activate s4 a
      else (.error .keyError, s2)

/-- The kinds registered through `Window.set_bound_default_class`: the only
registration in the library is `Window.set_bound_default_class(VAO.kind,
DefaultVAO)` at the bottom of `objects.py`. -/
def defaultClasses : List Kind := [Kind.vao]

/-- The binding-relevant part of `Window.__init__`: an empty `_bound` dict
and a `_defaults` dict holding a fresh default object for each registered
kind — here exactly one `DefaultVAO`, whose id is `dvao`. -/
def mkWindowSt (c : CtxId) (dvao : ObjId) : WindowSt :=
  { ctx := c, bound := [], defaults := [(Kind.vao, dvao)], glfwAlive := true }

/-- The object record of a freshly constructed `DefaultVAO` owned by `w`:
handle 0, non-shareable, VAO kind, no attachment. -/
def mkDefaultVAO (w : WinId) : GLObject :=
  { handle := some 0, window := w, shareable := false, kind := Kind.vao,
    ebo := none, isDefault := true }

end Glip

namespace Glip

/-- A filler window used outside the ids of interest in concrete states. -/
def junkWin : WindowSt := mkWindowSt 99 999

/-- A filler object used outside the ids of interest in concrete states. -/
def junkObj : GLObject :=
  { handle := none, window := 99, shareable := false, kind := Kind.vbo,
    ebo := none, isDefault := false }

/-- Concrete windows: 0 and 1 share `ObjectContext` 0, window 2 owns
`ObjectContext` 1; ids 100, 101, 102 are their default VAOs. -/
def csWindows : WinId → WindowSt := fun w =>
  if w = 0 then mkWindowSt 0 100
  else if w = 1 then mkWindowSt 0 101
  else if w = 2 then mkWindowSt 1 102
  else junkWin

/-- Concrete objects: defaults 100..102, a shareable VBO 10, shareable
EBOs 11 and 12, and non-shareable VAOs 20 and 21, all owned by window 0. -/
def csObjects : ObjId → GLObject := fun o =>
  if o = 100 then mkDefaultVAO 0
  else if o = 101 then mkDefaultVAO 1
  else if o = 102 then mkDefaultVAO 2
  else if o = 10 then
    { handle := some 1, window := 0, shareable := true, kind := Kind.vbo,
      ebo := none, isDefault := false }
  else if o = 11 then
    { handle := some 2, window := 0, shareable := true, kind := Kind.ebo,
      ebo := none, isDefault := false }
  else if o = 12 then
    { handle := some 3, window := 0, shareable := true, kind := Kind.ebo,
      ebo := none, isDefault := false }
  else if o = 20 then
    { handle := some 4, window := 0, shareable := false, kind := Kind.vao,
      ebo := none, isDefault := false }
  else if o = 21 then
    { handle := some 5, window := 0, shareable := false, kind := Kind.vao,
      ebo := none, isDefault := false }
  else junkObj

/-- The base concrete state: window 0 active, all tables empty. -/
def cs0 : GLState :=
  { active := some 0, windows := csWindows,
    ctxWindows := fun c => if c = 0 then [0, 1] else if c = 1 then [2] else [],
    objects := csObjects }

end Glip

namespace Glip

/-- Looking a key up right after setting it yields the new value. -/
theorem dictGet_dictSet_self {α β : Type} [DecidableEq α] (k : α) (v : β)
    (l : List (α × β)) : dictGet k (dictSet k v l) = some v := by
  simp [dictGet, dictSet]

/-- Setting one key leaves lookups of other keys unchanged. -/
theorem dictGet_dictSet_ne {α β : Type} [DecidableEq α] {k k' : α} (v : β)
    (l : List (α × β)) (h : k' ≠ k) :
    dictGet k (dictSet k' v l) = dictGet k l := by
  induction l with
  | nil => simp [dictGet, dictSet, h]
  | cons p rest ih =>
    by_cases hp : p.1 = k'
    · simp [dictGet, dictSet, h, hp] at ih ⊢
      rw [← hp] at h
      simp [Ne.symm h, ih]
    · simp [dictGet, dictSet, hp, h] at ih ⊢
      by_cases hk : p.1 = k
      · simp [hk, dictGet]
      · simp [hk, dictGet, ih]

/-- Erasing a key makes its lookup fail. -/
theorem dictGet_dictErase_self {α β : Type} [DecidableEq α] (k : α)
    (l : List (α × β)) : dictGet k (dictErase k l) = none := by
  induction l with
  | nil => rfl
  | cons p rest ih =>
    by_cases hp : p.1 = k
    · simpa [dictErase, hp] using ih
    · simpa [dictErase, dictGet, hp] using ih

/-- A successful lookup comes from a member of the association list. -/
theorem dictGet_mem {α β : Type} [DecidableEq α] {k : α} {v : β}
    {l : List (α × β)} (h : dictGet k l = some v) : (k, v) ∈ l := by
  induction l with
  | nil => simp [dictGet] at h
  | cons p rest ih =>
    by_cases hp : p.1 = k
    · simp [dictGet, hp] at h
      cases p
      simp_all
    · simp [dictGet, hp] at h
      exact List.mem_cons_of_mem _ (ih h)

/-- Erasure only removes entries. -/
theorem mem_dictErase {α β : Type} [DecidableEq α] {k : α} {p : α × β}
    {l : List (α × β)} (h : p ∈ dictErase k l) : p ∈ l :=
  List.mem_of_mem_filter h

theorem updateWin_active (s : GLState) (w : WinId) (f : WindowSt → WindowSt) :
    (updateWin s w f).active = s.active := rfl

theorem updateWin_objects (s : GLState) (w : WinId) (f : WindowSt → WindowSt) :
    (updateWin s w f).objects = s.objects := rfl

theorem updateWin_ctxWindows (s : GLState) (w : WinId) (f : WindowSt → WindowSt) :
    (updateWin s w f).ctxWindows = s.ctxWindows := rfl

theorem updateWin_windows_self (s : GLState) (w : WinId) (f : WindowSt → WindowSt) :
    (updateWin s w f).windows w = f (s.windows w) := by
  simp [updateWin]

theorem updateWin_windows_ne (s : GLState) (w : WinId) (f : WindowSt → WindowSt)
    (w' : WinId) (h : w' ≠ w) : (updateWin s w f).windows w' = s.windows w' := by
  simp [updateWin, h]

theorem updateObj_active (s : GLState) (o : ObjId) (f : GLObject → GLObject) :
    (updateObj s o f).active = s.active := rfl

theorem updateObj_windows (s : GLState) (o : ObjId) (f : GLObject → GLObject) :
    (updateObj s o f).windows = s.windows := rfl

theorem updateObj_ctxWindows (s : GLState) (o : ObjId) (f : GLObject → GLObject) :
    (updateObj s o f).ctxWindows = s.ctxWindows := rfl

theorem updateObj_objects_self (s : GLState) (o : ObjId) (f : GLObject → GLObject) :
    (updateObj s o f).objects o = f (s.objects o) := by
  simp [updateObj]

theorem updateObj_objects_ne (s : GLState) (o : ObjId) (f : GLObject → GLObject)
    (o' : ObjId) (h : o' ≠ o) : (updateObj s o f).objects o' = s.objects o' := by
  simp [updateObj, h]

/-- An existing object forces some window to be active. -/
theorem exists_active {s : GLState} {o : ObjId}
    (h : exists_in_current_context s o = true) : ∃ w, s.active = some w := by
  unfold exists_in_current_context at h
  by_cases hsh : (s.objects o).shareable
  · simp [hsh, ObjectContext.is_active, ObjectContext.get_active] at h
    cases ha : s.active with
    | none => rw [ha] at h; simp at h
    | some w => exact ⟨w, rfl⟩
  · simp [hsh, Window.is_active] at h
    exact ⟨(s.objects o).window, by simp [h]⟩

end Glip

namespace Glip

instance {e a : Type} [DecidableEq e] [DecidableEq a] : DecidableEq (Except e a) :=
  fun x y =>
  match x, y with
  | .error u, .error v =>
      if h : u = v then .isTrue (congrArg Except.error h)
      else .isFalse (fun hc => h (Except.error.inj hc))
  | .ok u, .ok v =>
      if h : u = v then .isTrue (congrArg Except.ok h)
      else .isFalse (fun hc => h (Except.ok.inj hc))
  | .error _, .ok _ => .isFalse (fun hc => Except.noConfusion hc)
  | .ok _, .error _ => .isFalse (fun hc => Except.noConfusion hc)

/-- Window-table updates keep each window's context reference. -/
theorem updateWin_ctx (s : GLState) (w : WinId) (f : WindowSt → WindowSt)
    (hf : ∀ ws, (f ws).ctx = ws.ctx) (x : WinId) :
    ((updateWin s w f).windows x).ctx = (s.windows x).ctx := by
  unfold updateWin
  simp only
  split
  · rw [hf]
  · rfl

/-- Window-table updates keep the active object context. -/
theorem get_active_ctx_updateWin (s : GLState) (w : WinId)
    (f : WindowSt → WindowSt) (hf : ∀ ws, (f ws).ctx = ws.ctx) :
    ObjectContext.get_active (updateWin s w f) = ObjectContext.get_active s := by
  unfold ObjectContext.get_active
  have hact : (updateWin s w f).active = s.active := rfl
  rw [hact]
  cases s.active with
  | none => rfl
  | some a =>
    simp only
    rw [updateWin_ctx s w f hf]

/-- Rebinding-table updates that keep each window's context reference do not
change which objects exist in the current context. -/
theorem exists_updateWin_preserved (s : GLState) (w : WinId)
    (f : WindowSt → WindowSt) (hf : ∀ ws, (f ws).ctx = ws.ctx) (o : ObjId) :
    exists_in_current_context (updateWin s w f) o = exists_in_current_context s o := by
  unfold exists_in_current_context
  rw [updateWin_objects]
  by_cases hsh : (s.objects o).shareable
  · simp only [hsh, if_true]
    unfold ObjectContext.is_active
    rw [get_active_ctx_updateWin s w f hf, updateWin_ctx s w f hf]
  · simp only [hsh]
    rfl

/-- Object updates that keep the shareable flag and the owning window do not
change which objects exist in the current context. -/
theorem exists_updateObj_preserved (s : GLState) (u : ObjId)
    (f : GLObject → GLObject) (hsh : ∀ g, (f g).shareable = g.shareable)
    (hwin : ∀ g, (f g).window = g.window) (o : ObjId) :
    exists_in_current_context (updateObj s u f) o = exists_in_current_context s o := by
  unfold exists_in_current_context ObjectContext.is_active ObjectContext.get_active
    Window.is_active updateObj
  cases s.active with
  | none => simp only; split <;> split <;> simp_all
  | some a => simp only; split <;> split <;> simp_all

/-- Claim C3: handle access succeeds exactly when the resource is not
destroyed and exists in the current context; for a shareable resource
existence means the active window shares the owning window's object
context, for a non-shareable one it means the owning window itself is
active; in particular a non-shareable resource owned by one window fails
with a context mismatch while a different window is active. -/
theorem handle_access_characterisation (s : GLState) (o : ObjId) :
    ((∃ h, handle s o = .ok h) ↔
      is_destroyed s o = false ∧ exists_in_current_context s o = true) ∧
    (exists_in_current_context s o = true ↔
      (if (s.objects o).shareable then
        ∃ a, s.active = some a ∧
          (s.windows a).ctx = (s.windows (s.objects o).window).ctx
      else s.active = some (s.objects o).window)) ∧
    ((s.objects o).shareable = false → ∀ y, s.active = some y →
      y ≠ (s.objects o).window → handle s o = .error .contextMismatch) := by
  refine ⟨?_, ?_, ?_⟩
  · unfold handle
    cases hex : exists_in_current_context s o <;>
      cases hd : is_destroyed s o <;> simp [hex, hd]
  · unfold exists_in_current_context ObjectContext.is_active ObjectContext.get_active
      Window.is_active
    by_cases hsh : (s.objects o).shareable
    · simp only [hsh, if_true]
      cases ha : s.active with
      | none => simp
      | some a => simp [eq_comm]
    · simp [hsh]
  · intro hsh y hy hne
    unfold handle
    rw [if_neg]
    simp [exists_in_current_context, hsh, Window.is_active, hy, hne]

/-- Claim C3 witness: the non-shareable VAO 20 is owned by window 0; while
window 2 is active its handle access fails with a context mismatch. -/
theorem handle_access_characterisation_witness :
    (cs0.objects 20).shareable = false ∧
    handle (Window.activate cs0 2).2 20 = .error .contextMismatch := by
  refine ⟨by decide, ?_⟩
  exact (handle_access_characterisation (Window.activate cs0 2).2 20).2.2
    (by decide) 2 (by decide) (by decide)

/-- Claim C2 (amended): the instance-level binding operations — `is_bound`,
`bind` (through any subclass override) and the `bound()` scope — all fail
with a context mismatch when the resource does not exist in the current
context, before touching any state. -/
theorem binding_ops_context_guard (s : GLState) (o : ObjId)
    (hex : exists_in_current_context s o = false) :
    is_bound s o = .error .contextMismatch ∧
    Bindable.bind s o = (.error .contextMismatch, s) ∧
    dispatchBind s o = (.error .contextMismatch, s) ∧
    ∀ body, bound_scope s o body = (.error .contextMismatch, s) := by
  have hib : is_bound s o = .error .contextMismatch := by
    unfold is_bound
    rw [if_neg]
    simp [hex]
  have hbb : Bindable.bind s o = (.error .contextMismatch, s) := by
    unfold Bindable.bind
    rw [hib]
  refine ⟨hib, hbb, ?_, ?_⟩
  · unfold dispatchBind
    cases hk : (s.objects o).kind <;>
      simp only [EBO.bind, VAO.bind, hbb]
  · intro body
    unfold bound_scope
    rw [hib]

/-- Claim C2 witness: the shareable VBO 10 does not exist under window 2's
independent object context, and its bind fails with a context mismatch. -/
theorem binding_ops_context_guard_witness :
    exists_in_current_context (Window.activate cs0 2).2 10 = false ∧
    dispatchBind (Window.activate cs0 2).2 10 =
      (.error .contextMismatch, (Window.activate cs0 2).2) := by
  exact ⟨by decide,
    (binding_ops_context_guard (Window.activate cs0 2).2 10 (by decide)).2.2.1⟩

/-- Claim C2 counterexample: class-level `unbind` performs no
context-existence check — with window 2 active, where VBO 10 does not
exist, `unbind` still succeeds instead of failing with a context-mismatch
error. -/
theorem unbind_skips_context_guard :
    exists_in_current_context (Window.activate cs0 2).2 10 = false ∧
    (Bindable.unbind (Window.activate cs0 2).2 Kind.vbo).1 = .ok () := by decide

end Glip

namespace Glip

/-- Claim C7: with the resource existing in the current context and not
destroyed, `bind` is a pure no-op returning `False` when the resource is
already the bound one for its kind, and otherwise records the resource in
the active window's table and returns `True`; in both cases the resource is
bound afterwards and `get_bound` for its kind returns it. -/
theorem bind_state_machine (s : GLState) (o : ObjId)
    (hex : exists_in_current_context s o = true)
    (hnd : is_destroyed s o = false) :
    (is_bound s o = .ok true → Bindable.bind s o = (.ok false, s)) ∧
    (is_bound s o = .ok false →
      ∃ s', Bindable.bind s o = (.ok true, s') ∧
        is_bound s' o = .ok true ∧
        get_bound s' (s.objects o).kind = .ok (some o)) := by
  obtain ⟨w, hw⟩ := exists_active hex
  constructor
  · intro hib
    unfold Bindable.bind
    rw [hib]
  · intro hib
    have hh : handle s o = .ok ((s.objects o).handle.getD 0) := by
      unfold handle
      simp [hex, hnd]
    refine ⟨updateWin s w
      (fun ws => { ws with bound := dictSet (s.objects o).kind o ws.bound }), ?_, ?_, ?_⟩
    · unfold Bindable.bind
      rw [hib, hh]
      unfold set_bound_active
      rw [hw]
      unfold Window.set_bound
      simp
    · unfold is_bound
      rw [exists_updateWin_preserved s w
        (fun ws => { ws with bound := dictSet (s.objects o).kind o ws.bound })
        (fun ws => rfl) o, hex]
      simp only [if_true]
      unfold get_bound
      rw [updateWin_active, hw]
      dsimp only
      unfold Window.get_bound
      rw [updateWin_objects, updateWin_windows_self]
      simp [dictGet_dictSet_self]
    · unfold get_bound
      rw [updateWin_active, hw]
      dsimp only
      unfold Window.get_bound
      rw [updateWin_windows_self]
      simp [dictGet_dictSet_self]

/-- Claim C7 witness: in the base state the shareable VBO 10 exists, is not
destroyed and is not bound; binding it transitions the table. -/
theorem bind_state_machine_witness :
    is_bound cs0 10 = .ok false ∧
    ∃ s', Bindable.bind cs0 10 = (.ok true, s') ∧
      is_bound s' 10 = .ok true ∧
      get_bound s' (cs0.objects 10).kind = .ok (some 10) := by
  exact ⟨by decide,
    (bind_state_machine cs0 10 (by decide) (by decide)).2 (by decide)⟩

end Glip

namespace Glip

/-- A `with` body that raises an exception without touching any state. -/
def raisingBody : GLState → Except GlipError Unit × GLState := fun s => (.error .userError, s)

/-- A `with` body that does nothing. -/
def idBody : GLState → Except GlipError Unit × GLState := fun s => (.ok (), s)

/-- Claim C1 evaluated at its failing input: before entering
`with ebo11.bound():` nothing is bound for the EBO kind; when the body
raises, the exception propagates but the EBO stays bound — the table is not
restored — while the same scope with a non-raising body does restore it. -/
theorem bound_scope_skips_restore_on_raise :
    Window.get_bound cs0 0 Kind.ebo = none ∧
    (bound_scope cs0 11 raisingBody).1 = .error .userError ∧
    Window.get_bound (bound_scope cs0 11 raisingBody).2 0 Kind.ebo = some 11 ∧
    (bound_scope cs0 11 idBody).1 = .ok () ∧
    Window.get_bound (bound_scope cs0 11 idBody).2 0 Kind.ebo = none := by decide

/-- State after constructing `vao1 = VAO(ebo1)` (vao 20 with ebo 11):
the constructor runs `with self.bound(): self.bind_ebo(ebo1)`. -/
def c6s1 : GLState := (bound_scope cs0 20 (fun s => bind_ebo s 20 11)).2

/-- State after additionally constructing `vao2 = VAO(ebo2)` (vao 21, ebo 12). -/
def c6s2 : GLState := (bound_scope c6s1 21 (fun s => bind_ebo s 21 12)).2

/-- State after `vao1.bind()`. -/
def c6s3 : GLState := (dispatchBind c6s2 20).2

/-- State after `vao2.bind()`. -/
def c6s4 : GLState := (dispatchBind c6s3 21).2

/-- State after rebinding `vao1`. -/
def c6s5 : GLState := (dispatchBind c6s4 20).2

/-- Claim C6: a container whose base bind does not transition leaves the
state untouched (state-machine guard), and in the two-container scenario
each `bind()` transition reinstates that container's remembered attachment
as the bound EBO: E1 after binding C1, E2 after binding C2, and E1 again
after rebinding C1. -/
theorem container_rebind_on_transition :
    (∀ s c, is_bound s c = .ok true → VAO.bind s c = (.ok false, s)) ∧
    ((bound_scope cs0 20 (fun s => bind_ebo s 20 11)).1 = .ok () ∧
      (bound_scope c6s1 21 (fun s => bind_ebo s 21 12)).1 = .ok () ∧
      (c6s2.objects 20).ebo = some 11 ∧
      (c6s2.objects 21).ebo = some 12 ∧
      (dispatchBind c6s2 20).1 = .ok true ∧
      Window.get_bound c6s3 0 Kind.ebo = some 11 ∧
      (dispatchBind c6s3 21).1 = .ok true ∧
      Window.get_bound c6s4 0 Kind.ebo = some 12 ∧
      (dispatchBind c6s4 20).1 = .ok true ∧
      Window.get_bound c6s5 0 Kind.ebo = some 11) := by
  constructor
  · intro s c h
    unfold VAO.bind Bindable.bind
    rw [h]
  · decide

/-- Claim C6 witness: after the scenario's first bind, vao 20 is the bound
container and rebinding it is a no-op. -/
theorem container_rebind_on_transition_witness :
    is_bound c6s3 20 = .ok true ∧ VAO.bind c6s3 20 = (.ok false, c6s3) :=
  ⟨by decide, container_rebind_on_transition.1 c6s3 20 (by decide)⟩

/-- Claim C9 counterexample: the EBO kind has no registered default class,
so after `unbind()` for that kind `get_bound` yields `None`, not a non-null
default resource — a fresh window's defaults table only covers the VAO kind. -/
theorem unbind_default_fallback_missing :
    (Bindable.unbind cs0 Kind.ebo).1 = .ok () ∧
    get_bound (Bindable.unbind cs0 Kind.ebo).2 Kind.ebo = .ok none ∧
    dictGet Kind.ebo (cs0.windows 0).defaults = none ∧
    cs0.windows 0 = mkWindowSt 0 100 := by decide

/-- Claim C9 (amended): a freshly constructed window holds a default
resource only for the VAO kind — the single registered default class — so
`get_bound` falls back to the default VAO for that kind (also after
`unbind`), while for every other kind `unbind` leaves `get_bound` with no
object at all. -/
theorem default_resource_only_for_vao_kind (s : GLState) (w : WinId)
    (c : CtxId) (d : ObjId) (hw : s.windows w = mkWindowSt c d)
    (ha : s.active = some w) :
    Window.get_bound s w Kind.vao = some d ∧
    (∀ k, Bindable.unbind s k = (.ok (), Window.clear_bound s w k)) ∧
    (∀ k, k ≠ Kind.vao →
      Window.get_bound (Window.clear_bound s w k) w k = none) ∧
    Window.get_bound (Window.clear_bound s w Kind.vao) w Kind.vao = some d := by
  refine ⟨?_, ?_, ?_, ?_⟩
  · unfold Window.get_bound
    rw [hw]
    simp [mkWindowSt, dictGet]
  · intro k
    unfold Bindable.unbind
    rw [ha]
  · intro k hk
    unfold Window.clear_bound Window.get_bound
    rw [updateWin_windows_self, hw]
    simp [mkWindowSt, dictErase, dictGet, hk, Ne.symm hk]
  · unfold Window.clear_bound Window.get_bound
    rw [updateWin_windows_self, hw]
    simp [mkWindowSt, dictErase, dictGet]

/-- Claim C9 witness: instantiating the amended statement on window 0 of
the base state, whose default VAO is object 100. -/
theorem default_resource_only_for_vao_kind_witness :
    Window.get_bound cs0 0 Kind.vao = some 100 ∧
    (∀ k, k ≠ Kind.vao →
      Window.get_bound (Window.clear_bound cs0 0 k) 0 k = none) := by
  have h := default_resource_only_for_vao_kind cs0 0 0 100 (by decide) (by decide)
  exact ⟨h.1, h.2.2.1⟩

end Glip

namespace Glip

/-- State with window 1 active (window 1 shares object context 0 with
window 0, which owns the shareable VBO 10). -/
def c4sB : GLState := (Window.activate cs0 1).2

/-- State after binding the shareable VBO 10 while window 1 is active. -/
def c4sBound : GLState := (Bindable.bind c4sB 10).2

/-- State after re-activating window 0. -/
def c4sBack : GLState := (Window.activate c4sBound 0).2

/-- Claim C4 counterexample: VBO 10 is shareable, owned under window 0,
and windows 0 and 1 share the same object context; binding it while
window 1 is active succeeds, yet after activating window 0 the class-level
`get_bound` for its kind returns `None`, not the resource — the binding was
recorded in window 1's per-window table, not in a namespace-wide table. -/
theorem shared_binding_not_namespace_scoped :
    (cs0.objects 10).shareable = true ∧
    (cs0.windows 0).ctx = (cs0.windows 1).ctx ∧
    (Bindable.bind c4sB 10).1 = .ok true ∧
    Window.get_bound c4sBound 1 Kind.vbo = some 10 ∧
    c4sBack.active = some 0 ∧
    get_bound c4sBack Kind.vbo = .ok none := by decide

/-- Claim C4 (amended): a successful bind transition records the resource
in the table of the window that is active at bind time, and leaves the
state of every other window — members of the same object context included —
unchanged, so only the binding window observes the resource as bound. -/
theorem bind_records_in_active_window_only (s s' : GLState) (o : ObjId)
    (w : WinId) (hw : s.active = some w)
    (hb : Bindable.bind s o = (.ok true, s')) :
    Window.get_bound s' w (s.objects o).kind = some o ∧
    (∀ w', w' ≠ w → s'.windows w' = s.windows w') ∧
    s'.ctxWindows = s.ctxWindows := by
  unfold Bindable.bind at hb
  cases hi : is_bound s o with
  | error e => rw [hi] at hb; simp at hb
  | ok b =>
    cases b with
    | true => rw [hi] at hb; simp at hb
    | false =>
      rw [hi] at hb
      dsimp only at hb
      cases hh : handle s o with
      | error e => rw [hh] at hb; simp at hb
      | ok v =>
        rw [hh] at hb
        dsimp only at hb
        unfold set_bound_active at hb
        rw [hw] at hb
        dsimp only at hb
        unfold Window.set_bound at hb
        rw [if_pos rfl] at hb
        dsimp only at hb
        have hs' : s' = updateWin s w
            (fun ws => { ws with bound := dictSet (s.objects o).kind o ws.bound }) := by
          have := congrArg Prod.snd hb
          exact this.symm
        subst hs'
        refine ⟨?_, ?_, ?_⟩
        · unfold Window.get_bound
          rw [updateWin_windows_self]
          simp [dictGet_dictSet_self]
        · intro w' hne
          exact updateWin_windows_ne s w _ w' hne
        · rfl

/-- Claim C4 witness: binding VBO 10 while window 1 is active records it in
window 1's table and leaves every other window untouched. -/
theorem bind_records_in_active_window_only_witness :
    Window.get_bound c4sBound 1 (c4sB.objects 10).kind = some 10 ∧
    (∀ w', w' ≠ 1 → c4sBound.windows w' = c4sB.windows w') ∧
    c4sBound.ctxWindows = c4sB.ctxWindows := by
  exact bind_records_in_active_window_only c4sB c4sBound 10 1 (by decide)
    (by have h1 : (Bindable.bind c4sB 10).1 = .ok true := by decide
        exact Prod.ext h1 rfl)

end Glip

namespace Glip

theorem scrubStep_objects (o : ObjId) (k : Kind) (s : GLState) (w : WinId) :
    (scrubStep o k s w).objects = s.objects := by
  unfold scrubStep Window.clear_bound
  split <;> rfl

theorem scrubStep_active (o : ObjId) (k : Kind) (s : GLState) (w : WinId) :
    (scrubStep o k s w).active = s.active := by
  unfold scrubStep Window.clear_bound
  split <;> rfl

theorem scrubStep_ctxWindows (o : ObjId) (k : Kind) (s : GLState) (w : WinId) :
    (scrubStep o k s w).ctxWindows = s.ctxWindows := by
  unfold scrubStep Window.clear_bound
  split <;> rfl

theorem scrubStep_defaults (o : ObjId) (k : Kind) (s : GLState) (w w' : WinId) :
    ((scrubStep o k s w).windows w').defaults = (s.windows w').defaults := by
  unfold scrubStep Window.clear_bound updateWin
  split
  · simp only
    split <;> rfl
  · rfl

theorem scrubStep_ctx (o : ObjId) (k : Kind) (s : GLState) (w w' : WinId) :
    ((scrubStep o k s w).windows w').ctx = (s.windows w').ctx := by
  unfold scrubStep Window.clear_bound updateWin
  split
  · simp only
    split <;> rfl
  · rfl

theorem scrubStep_glfwAlive (o : ObjId) (k : Kind) (s : GLState) (w w' : WinId) :
    ((scrubStep o k s w).windows w').glfwAlive = (s.windows w').glfwAlive := by
  unfold scrubStep Window.clear_bound updateWin
  split
  · simp only
    split <;> rfl
  · rfl

theorem scrubStep_bound_sub (o : ObjId) (k : Kind) (s : GLState) (w w' : WinId)
    (p : Kind × ObjId) (h : p ∈ ((scrubStep o k s w).windows w').bound) :
    p ∈ (s.windows w').bound := by
  unfold scrubStep Window.clear_bound updateWin at h
  split at h
  · simp only at h
    split at h
    · exact mem_dictErase h
    · exact h
  · exact h

/-- One scrub pass over a window leaves that window's bound table without
the destroyed object under the scrubbed kind: either the entry was the
object and is erased, or it already was a different object. -/
theorem scrubStep_cleared (o : ObjId) (k : Kind) (s : GLState) (w : WinId) :
    dictGet k ((scrubStep o k s w).windows w).bound ≠ some o := by
  unfold scrubStep
  split
  · unfold Window.clear_bound
    rw [updateWin_windows_self]
    simp [dictGet_dictErase_self]
  · rename_i hcond
    intro hc
    apply hcond
    unfold Window.get_bound
    rw [hc]

theorem foldScrub_objects (o : ObjId) (k : Kind) :
    ∀ (ws : List WinId) (s : GLState),
      (ws.foldl (scrubStep o k) s).objects = s.objects
  | [], _ => rfl
  | w0 :: rest, s => by
    rw [List.foldl_cons, foldScrub_objects o k rest, scrubStep_objects]

theorem foldScrub_active (o : ObjId) (k : Kind) :
    ∀ (ws : List WinId) (s : GLState),
      (ws.foldl (scrubStep o k) s).active = s.active
  | [], _ => rfl
  | w0 :: rest, s => by
    rw [List.foldl_cons, foldScrub_active o k rest, scrubStep_active]

theorem foldScrub_ctxWindows (o : ObjId) (k : Kind) :
    ∀ (ws : List WinId) (s : GLState),
      (ws.foldl (scrubStep o k) s).ctxWindows = s.ctxWindows
  | [], _ => rfl
  | w0 :: rest, s => by
    rw [List.foldl_cons, foldScrub_ctxWindows o k rest, scrubStep_ctxWindows]

theorem foldScrub_defaults (o : ObjId) (k : Kind) :
    ∀ (ws : List WinId) (s : GLState) (w' : WinId),
      ((ws.foldl (scrubStep o k) s).windows w').defaults = (s.windows w').defaults
  | [], _, _ => rfl
  | w0 :: rest, s, w' => by
    rw [List.foldl_cons, foldScrub_defaults o k rest _ w', scrubStep_defaults]

theorem foldScrub_ctx (o : ObjId) (k : Kind) :
    ∀ (ws : List WinId) (s : GLState) (w' : WinId),
      ((ws.foldl (scrubStep o k) s).windows w').ctx = (s.windows w').ctx
  | [], _, _ => rfl
  | w0 :: rest, s, w' => by
    rw [List.foldl_cons, foldScrub_ctx o k rest _ w', scrubStep_ctx]

theorem foldScrub_glfwAlive (o : ObjId) (k : Kind) :
    ∀ (ws : List WinId) (s : GLState) (w' : WinId),
      ((ws.foldl (scrubStep o k) s).windows w').glfwAlive = (s.windows w').glfwAlive
  | [], _, _ => rfl
  | w0 :: rest, s, w' => by
    rw [List.foldl_cons, foldScrub_glfwAlive o k rest _ w', scrubStep_glfwAlive]

theorem foldScrub_bound_sub (o : ObjId) (k : Kind) :
    ∀ (ws : List WinId) (s : GLState) (w' : WinId) (p : Kind × ObjId),
      p ∈ ((ws.foldl (scrubStep o k) s).windows w').bound → p ∈ (s.windows w').bound
  | [], _, _, _, h => h
  | w0 :: rest, s, w', p, h => by
    rw [List.foldl_cons] at h
    exact scrubStep_bound_sub o k s w0 w' p (foldScrub_bound_sub o k rest _ w' p h)

theorem foldScrub_frame (o : ObjId) (k : Kind) :
    ∀ (ws : List WinId) (s : GLState) (w' : WinId), w' ∉ ws →
      (ws.foldl (scrubStep o k) s).windows w' = s.windows w'
  | [], _, _, _ => rfl
  | w0 :: rest, s, w', h => by
    rw [List.foldl_cons]
    have h1 : w' ∉ rest := fun hc => h (List.mem_cons_of_mem _ hc)
    have h2 : w' ≠ w0 := fun hc => h (hc ▸ List.mem_cons_self w0 rest)
    rw [foldScrub_frame o k rest _ w' h1]
    unfold scrubStep Window.clear_bound
    split
    · exact updateWin_windows_ne s w0 _ w' h2
    · rfl

/-- Scrubbing every window of the list clears the destroyed object from
each of their bound tables under the scrubbed kind. -/
theorem foldScrub_cleared (o : ObjId) (k : Kind) :
    ∀ (ws : List WinId) (s : GLState),
      ∀ w ∈ ws, dictGet k ((ws.foldl (scrubStep o k) s).windows w).bound ≠ some o
  | [], _, w, hw => absurd hw (List.not_mem_nil w)
  | w0 :: rest, s, w, hw => by
    rw [List.foldl_cons]
    rcases List.mem_cons.mp hw with heq | hmem
    · subst heq
      by_cases hr : w ∈ rest
      · exact foldScrub_cleared o k rest _ w hr
      · rw [foldScrub_frame o k rest _ w hr]
        exact scrubStep_cleared o k s w
    · exact foldScrub_cleared o k rest _ w hmem

end Glip

namespace Glip

/-- Claim C5 (amended): after a successful `destroy`, every `_bound` table
entry still referencing the resource, in every window of its scope — the
object context's member windows for a shareable resource, the owning
window otherwise — is cleared; consequently a scope window can still
report the destroyed resource as bound only through the `_defaults`
fallback, that is, only when the resource is that window's default for the
kind.  The kind-matching hypothesis is the invariant enforced by the
assert in `set_bound`. -/
theorem destroy_scrubs_scope_bindings (s s' : GLState) (o : ObjId)
    (hwf : ∀ w ∈ scopeWindows s o, ∀ p ∈ (s.windows w).bound,
      (s.objects p.2).kind = p.1)
    (hdes : Bindable.destroy s o = (.ok (), s')) :
    ∀ w ∈ scopeWindows s o, ∀ k,
      dictGet k (s'.windows w).bound ≠ some o ∧
      (Window.get_bound s' w k = some o →
        dictGet k (s'.windows w).defaults = some o) := by
  unfold Bindable.destroy destroyBase at hdes
  cases hdd : do_destroy s o with
  | error e => rw [hdd] at hdes; simp at hdes
  | ok u =>
    rw [hdd] at hdes
    dsimp only at hdes
    have hscope : scopeWindows (updateObj s o (fun g => { g with handle := none })) o
        = scopeWindows s o := by
      simp [scopeWindows, updateObj]
    have hkind : ((updateObj s o (fun g => { g with handle := none })).objects o).kind
        = (s.objects o).kind := by
      simp [updateObj]
    rw [hscope, hkind] at hdes
    have hs' : s' = (scopeWindows s o).foldl (scrubStep o (s.objects o).kind)
        (updateObj s o (fun g => { g with handle := none })) :=
      (congrArg Prod.snd hdes).symm
    subst hs'
    intro w hw k
    have hwin1 : (updateObj s o (fun g => { g with handle := none })).windows
        = s.windows := rfl
    have h1 : dictGet k (((scopeWindows s o).foldl (scrubStep o (s.objects o).kind)
        (updateObj s o (fun g => { g with handle := none }))).windows w).bound
          ≠ some o := by
      by_cases hkk : k = (s.objects o).kind
      · rw [hkk]
        exact foldScrub_cleared o (s.objects o).kind (scopeWindows s o) _ w hw
      · intro hc
        have hmem := dictGet_mem hc
        have hmem1 := foldScrub_bound_sub o (s.objects o).kind (scopeWindows s o) _ w (k, o) hmem
        rw [hwin1] at hmem1
        exact hkk (hwf w hw (k, o) hmem1).symm
    refine ⟨h1, ?_⟩
    intro hgb
    unfold Window.get_bound at hgb
    cases hd : dictGet k (((scopeWindows s o).foldl (scrubStep o (s.objects o).kind)
        (updateObj s o (fun g => { g with handle := none }))).windows w).bound with
    | none =>
      rw [hd] at hgb
      dsimp only at hgb
      exact hgb
    | some p =>
      rw [hd] at hgb
      dsimp only at hgb
      rw [hgb] at hd
      exact absurd hd h1

/-- State with the shareable EBO 11 bound under window 0. -/
def c5s1 : GLState := (dispatchBind cs0 11).2

/-- State with EBO 11 additionally bound under window 1. -/
def c5s2 : GLState := (dispatchBind (Window.activate c5s1 1).2 11).2

/-- State after destroying EBO 11 while it is bound in windows 0 and 1. -/
def c5s3 : GLState := (Bindable.destroy c5s2 11).2

/-- Claim C5 witness: destroying EBO 11, bound in both member windows of
its shared object context, clears it from every scope window's bound
table, and no window reports it through a defaults entry. -/
theorem destroy_scrubs_scope_bindings_witness :
    Bindable.destroy c5s2 11 = (.ok (), c5s3) ∧
    ∀ w ∈ scopeWindows c5s2 11, ∀ k,
      dictGet k (c5s3.windows w).bound ≠ some 11 ∧
      (Window.get_bound c5s3 w k = some 11 →
        dictGet k (c5s3.windows w).defaults = some 11) := by
  have hdes : Bindable.destroy c5s2 11 = (.ok (), c5s3) := by
    have h1 : (Bindable.destroy c5s2 11).1 = .ok () := by decide
    exact Prod.ext h1 rfl
  exact ⟨hdes, destroy_scrubs_scope_bindings c5s2 c5s3 11 (by decide) hdes⟩

/-- State after destroying window 0's default VAO (object 100) directly,
as is reachable through `VAO.get_default().destroy()`. -/
def c5dflt : GLState := (Bindable.destroy cs0 100).2

/-- Claim C5 counterexample: destroying the default VAO succeeds, yet its
owning window still reports the destroyed object as bound — `get_bound`
returns it through the `_defaults` fallback and `is_bound` on it is true —
so a Context in scope does report the destroyed resource as bound. -/
theorem destroyed_default_still_reported_bound :
    (Bindable.destroy cs0 100).1 = .ok () ∧
    is_destroyed c5dflt 100 = true ∧
    Window.get_bound c5dflt 0 Kind.vao = some 100 ∧
    is_bound c5dflt 100 = .ok true := by decide

end Glip

namespace Glip

/-- A successful `destroy` nulls exactly the destroyed object's handle and
leaves every other object record — including `_ebo` attachment references
held by containers — unchanged. -/
theorem destroy_objects_shape (s s1 : GLState) (o : ObjId)
    (h : Bindable.destroy s o = (.ok (), s1)) :
    s1.objects o = { s.objects o with handle := none } ∧
    ∀ o', o' ≠ o → s1.objects o' = s.objects o' := by
  unfold Bindable.destroy destroyBase at h
  cases hdd : do_destroy s o with
  | error e => rw [hdd] at h; simp at h
  | ok u =>
    rw [hdd] at h
    dsimp only at h
    have hs1 : s1 = List.foldl
        (scrubStep o ((updateObj s o fun g => { g with handle := none }).objects o).kind)
        (updateObj s o fun g => { g with handle := none })
        (scopeWindows (updateObj s o fun g => { g with handle := none }) o) :=
      (congrArg Prod.snd h).symm
    constructor
    · rw [hs1, foldScrub_objects, updateObj_objects_self]
    · intro o' hne
      rw [hs1, foldScrub_objects, updateObj_objects_ne _ _ _ _ hne]

/-- Claim C10: destroying a container's attached EBO leaves the container's
remembered `_ebo` reference in place; a later container bind that actually
transitions re-records the already-destroyed EBO as the bound one in the
active window's table, raising no use-after-destroy error. -/
theorem destroyed_attachment_rebound (s s1 : GLState) (c e : ObjId) (w : WinId)
    (hce : (s.objects c).ebo = some e)
    (hcne : c ≠ e)
    (hde : Bindable.destroy s e = (.ok (), s1))
    (hex : exists_in_current_context s1 c = true)
    (hnd : is_destroyed s1 c = false)
    (hnb : is_bound s1 c = .ok false)
    (hek : (s1.objects e).kind = Kind.ebo)
    (ha : s1.active = some w) :
    (s1.objects c).ebo = some e ∧
    is_destroyed s1 e = true ∧
    ∃ s2, VAO.bind s1 c = (.ok true, s2) ∧
      Window.get_bound s2 w Kind.ebo = some e ∧
      is_destroyed s2 e = true := by
  obtain ⟨hoe, hother⟩ := destroy_objects_shape s s1 e hde
  have hce1 : (s1.objects c).ebo = some e := by rw [hother c hcne]; exact hce
  have hdd1 : is_destroyed s1 e = true := by
    unfold is_destroyed
    rw [hoe]
    rfl
  have hh : handle s1 c = .ok ((s1.objects c).handle.getD 0) := by
    unfold handle
    simp [hex, hnd]
  have hbase : Bindable.bind s1 c = (.ok true, updateWin s1 w
      (fun ws => { ws with bound := dictSet (s1.objects c).kind c ws.bound })) := by
    unfold Bindable.bind
    rw [hnb, hh]
    dsimp only
    unfold set_bound_active
    rw [ha]
    dsimp only
    unfold Window.set_bound
    rw [if_pos rfl]
  set sA := updateWin s1 w
    (fun ws => { ws with bound := dictSet (s1.objects c).kind c ws.bound }) with hsA
  have hAc : sA.objects c = s1.objects c := rfl
  have hAe : sA.objects e = s1.objects e := rfl
  have hAact : sA.active = some w := ha
  have hset : set_bound_active sA e = (.ok (), updateWin sA w
      (fun ws => { ws with bound := dictSet (sA.objects e).kind e ws.bound })) := by
    unfold set_bound_active
    rw [hAact]
    dsimp only
    unfold Window.set_bound
    rw [if_pos rfl]
  refine ⟨hce1, hdd1, updateWin sA w
    (fun ws => { ws with bound := dictSet (sA.objects e).kind e ws.bound }),
    ?_, ?_, ?_⟩
  · unfold VAO.bind
    rw [hbase]
    dsimp only
    rw [hAc, hce1]
    dsimp only
    rw [hset]
  · unfold Window.get_bound
    rw [updateWin_windows_self]
    dsimp only
    rw [hAe, hek, dictGet_dictSet_self]
  · exact hdd1

/-- State after destroying the attached EBO 11 while the other container
(vao 21) is the bound one. -/
def c10s1 : GLState := (Bindable.destroy c6s4 11).2

/-- Claim C10 witness: in the scenario state after binding vao 21, EBO 11
is still vao 20's remembered attachment; destroying it and rebinding vao 20
records the destroyed EBO as bound. -/
theorem destroyed_attachment_rebound_witness :
    (c10s1.objects 20).ebo = some 11 ∧
    is_destroyed c10s1 11 = true ∧
    ∃ s2, VAO.bind c10s1 20 = (.ok true, s2) ∧
      Window.get_bound s2 0 Kind.ebo = some 11 ∧
      is_destroyed s2 11 = true := by
  have hde : Bindable.destroy c6s4 11 = (.ok (), c10s1) := by
    have h1 : (Bindable.destroy c6s4 11).1 = .ok () := by decide
    exact Prod.ext h1 rfl
  exact destroyed_attachment_rebound c6s4 c10s1 20 11 0 (by decide) (by decide)
    hde (by decide) (by decide) (by decide) (by decide) (by decide)
end Glip

namespace Glip

/-- Activation succeeds while the native window is still attached. -/
theorem window_activate_ok (s : GLState) (w : WinId)
    (h : (s.windows w).glfwAlive = true) :
    Window.activate s w = (.ok (), { s with active := some w }) := by
  unfold Window.activate
  rw [if_pos h]

/-- Once the native window attribute is gone, `destroy` fails immediately
inside its initial `activate` call. -/
theorem window_destroy_dead (s : GLState) (w : WinId)
    (h : (s.windows w).glfwAlive = false) :
    Window.destroy s w = (.error .attributeError, s) := by
  unfold Window.destroy
  rw [show Window.activate s w = (.error .attributeError, s) from by
    unfold Window.activate
    rw [if_neg (by simp [h])]]

/-- Destroying a default object always takes the no-op `_do_destroy` path. -/
theorem do_destroy_isDefault (s : GLState) (o : ObjId)
    (h : (s.objects o).isDefault = true) : do_destroy s o = .ok () := by
  unfold do_destroy
  rw [if_pos h]

/-- The full shape of a successful default-object destroy. -/
theorem destroy_default_ok (s : GLState) (o : ObjId)
    (h : (s.objects o).isDefault = true) :
    Bindable.destroy s o = (.ok (), List.foldl
      (scrubStep o ((updateObj s o fun g => { g with handle := none }).objects o).kind)
      (updateObj s o fun g => { g with handle := none })
      (scopeWindows (updateObj s o fun g => { g with handle := none }) o)) := by
  unfold Bindable.destroy destroyBase
  rw [do_destroy_isDefault s o h]

/-- The state reached inside `Window.destroy` after activating the dying
window and destroying its single default resource `d`. -/
def destroyMid (s : GLState) (w : WinId) (d : ObjId) : GLState :=
  (Bindable.destroy { s with active := some w } d).2

/-- The state reached inside `Window.destroy` after additionally detaching
the window from its object context and deleting its native window. -/
def destroyPost (s : GLState) (w : WinId) (d : ObjId) : GLState :=
  updateWin (detachWindow (destroyMid s w d)
      ((destroyMid s w d).windows w).ctx w) w
    (fun ws => { ws with glfwAlive := false })

end Glip

namespace Glip

/-- Claim C8: destroying a window with a live native handle, whose defaults
table holds its single default VAO `d` and which is still attached to its
object context, succeeds; afterwards the previously active window is active
again (or no window is active when the destroyed one was active or none
was), the default resource is destroyed, the window is detached from its
object context, its native window is released, and a second `destroy`
fails with the attribute error caused by the deleted native window. -/
theorem window_destroy_spec (s : GLState) (w : WinId) (d : ObjId)
    (halive : (s.windows w).glfwAlive = true)
    (hdefs : (s.windows w).defaults = [(Kind.vao, d)])
    (hdflt : (s.objects d).isDefault = true)
    (hactw : ∀ a, s.active = some a → (s.windows a).glfwAlive = true)
    (hmem : w ∈ s.ctxWindows (s.windows w).ctx) :
    ∃ s', Window.destroy s w = (.ok (), s') ∧
      s'.active = (match s.active with
        | none => none
        | some a => if a = w then none else some a) ∧
      is_destroyed s' d = true ∧
      w ∉ s'.ctxWindows (s.windows w).ctx ∧
      (s'.windows w).glfwAlive = false ∧
      (Window.destroy s' w).1 = .error .attributeError := by
  have hactv := window_activate_ok s w halive
  have hlist : ((({ s with active := some w } : GLState).windows w).defaults).map
      (fun p => p.2) = [d] := by
    show ((s.windows w).defaults).map (fun p => p.2) = [d]
    rw [hdefs]
    rfl
  have hbd : Bindable.destroy { s with active := some w } d =
      (.ok (), destroyMid s w d) := by
    unfold destroyMid
    rw [destroy_default_ok { s with active := some w } d hdflt]
  have hdl : destroyList { s with active := some w } [d] = (.ok (), destroyMid s w d) := by
    unfold destroyList
    rw [hbd]
    dsimp only
    unfold destroyList
    rfl
  have h2ctxW : (destroyMid s w d).ctxWindows = s.ctxWindows := by
    unfold destroyMid
    rw [destroy_default_ok { s with active := some w } d hdflt]
    dsimp only
    rw [foldScrub_ctxWindows]
    rfl
  have h2ctx : ∀ x, ((destroyMid s w d).windows x).ctx = (s.windows x).ctx := by
    intro x
    unfold destroyMid
    rw [destroy_default_ok { s with active := some w } d hdflt]
    dsimp only
    rw [foldScrub_ctx]
    rfl
  have h2alive : ∀ x, ((destroyMid s w d).windows x).glfwAlive
      = (s.windows x).glfwAlive := by
    intro x
    unfold destroyMid
    rw [destroy_default_ok { s with active := some w } d hdflt]
    dsimp only
    rw [foldScrub_glfwAlive]
    rfl
  have h2objd : (destroyMid s w d).objects d = { s.objects d with handle := none } := by
    unfold destroyMid
    rw [destroy_default_ok { s with active := some w } d hdflt]
    dsimp only
    rw [foldScrub_objects, updateObj_objects_self]
  have hmem2 : w ∈ (destroyMid s w d).ctxWindows ((destroyMid s w d).windows w).ctx := by
    rw [h2ctxW, h2ctx w]
    exact hmem
  have hpostDead : ((destroyPost s w d).windows w).glfwAlive = false := by
    unfold destroyPost
    rw [updateWin_windows_self]
  have hpostDestroyed : is_destroyed (destroyPost s w d) d = true := by
    unfold is_destroyed destroyPost detachWindow
    rw [updateWin_objects]
    show decide (((destroyMid s w d).objects d).handle = none) = true
    rw [h2objd]
    rfl
  have hpostDetached : w ∉ (destroyPost s w d).ctxWindows (s.windows w).ctx := by
    unfold destroyPost
    rw [updateWin_ctxWindows]
    unfold detachWindow
    dsimp only
    rw [if_pos (h2ctx w).symm]
    intro hcon
    have := List.of_mem_filter hcon
    simp at this
  cases hA : s.active with
  | none =>
    refine ⟨{ destroyPost s w d with active := none }, ?_, rfl, hpostDestroyed,
      hpostDetached, hpostDead, ?_⟩
    · unfold Window.destroy
      rw [hactv]
      dsimp only
      rw [hlist, hdl]
      dsimp only
      rw [if_pos hmem2, hA]
      rfl
    · rw [window_destroy_dead { destroyPost s w d with active := none } w hpostDead]
  | some a =>
    by_cases haw : a = w
    · refine ⟨{ destroyPost s w d with active := none }, ?_, ?_, hpostDestroyed,
        hpostDetached, hpostDead, ?_⟩
      · unfold Window.destroy
        rw [hactv]
        dsimp only
        rw [hlist, hdl]
        dsimp only
        rw [if_pos hmem2, hA]
        dsimp only
        rw [show updateWin (detachWindow (destroyMid s w d)
            ((destroyMid s w d).windows w).ctx w) w
            (fun ws => { ws with glfwAlive := false }) = destroyPost s w d from rfl]
        rw [if_pos haw]
      · dsimp only
        rw [if_pos haw]
      · rw [window_destroy_dead { destroyPost s w d with active := none } w hpostDead]
    · have haal : ((destroyPost s w d).windows a).glfwAlive = true := by
        unfold destroyPost
        rw [updateWin_windows_ne _ _ _ a haw]
        unfold detachWindow
        dsimp only
        rw [h2alive a]
        exact hactw a hA
      refine ⟨{ destroyPost s w d with active := some a }, ?_, ?_, hpostDestroyed,
        hpostDetached, hpostDead, ?_⟩
      · unfold Window.destroy
        rw [hactv]
        dsimp only
        rw [hlist, hdl]
        dsimp only
        rw [if_pos hmem2, hA]
        dsimp only
        rw [show updateWin (detachWindow (destroyMid s w d)
            ((destroyMid s w d).windows w).ctx w) w
            (fun ws => { ws with glfwAlive := false }) = destroyPost s w d from rfl]
        rw [if_neg haw, window_activate_ok (destroyPost s w d) a haal]
      · dsimp only
        rw [if_neg haw]
      · rw [window_destroy_dead { destroyPost s w d with active := some a } w hpostDead]

end Glip

namespace Glip

/-- Claim C8 witness: with window 1 active, destroying window 0 leaves
window 1 active, destroys default VAO 100, detaches window 0 from object
context 0, kills its native window, and a second destroy fails. -/
theorem window_destroy_spec_witness :
    ∃ s', Window.destroy (Window.activate cs0 1).2 0 = (.ok (), s') ∧
      s'.active = (match (Window.activate cs0 1).2.active with
        | none => none
        | some a => if a = 0 then none else some a) ∧
      is_destroyed s' 100 = true ∧
      0 ∉ s'.ctxWindows (((Window.activate cs0 1).2.windows 0).ctx) ∧
      (s'.windows 0).glfwAlive = false ∧
      (Window.destroy s' 0).1 = .error .attributeError := by
  exact window_destroy_spec (Window.activate cs0 1).2 0 100 (by decide) (by decide)
    (by decide)
    (by intro a ha
        have ha' : some 1 = some a := ha
        injection ha' with h
        subst h
        decide)
    (by decide)

end Glip
